import Mathlib

/-!
Shallow embedding of `src/tagger.py` (Vauhtijuoksu/obs-timestamp-logger).

The script keeps a module-level dictionary
`data = {"settings": ..., "in_game_scene": False, "current_game": None}`,
registers `handle_event` as the OBS frontend event callback, and on each
scene-changed event performs a start transition, an end transition, or a
no-op.  External effects (the HTTP GET in `set_game`, the file append in
`log_transition`, console prints) are made explicit: the environment's
behaviour for one call is passed in as a parameter, and the effects the
call performs are returned.  Python exceptions are modelled by an `exc`
field: a raised exception aborts the rest of the handler body, but
mutations made before the raise persist, exactly as they do for the
module-level `data` dictionary in the script.
-/

namespace Tagger

/-- The script's mutable session state: the `in_game_scene` and
`current_game` entries of the module-level `data` dictionary
(tagger.py lines 17-21).  The `settings` entry is modelled separately as
`Config`, since OBS owns it and the script only reads it. -/
structure Data where
  in_game_scene : Bool
  current_game : Option String
deriving Repr, DecidableEq

/-- Initial session state (tagger.py lines 17-21): not in a game scene,
no current game. -/
def initialData : Data := { in_game_scene := false, current_game := none }

/-- The three configured properties, as `handle_event` and the tool
functions read them back from the OBS settings object: the editable list
of scene names under key "gamescene", and the two text values under
"logfile" and "apiurl" (tagger.py lines 43-53, 75, 85, 109-115).
`handle_event` re-reads them on every invocation, so they are a
parameter of each step rather than part of the state. -/
structure Config where
  gamescene : List String
  logfile : String
  apiurl : String
deriving Repr, DecidableEq

/-- Python `str(...)` of the `current_game` value as interpolated by the
f-string on tagger.py line 77: `None` prints as the literal "None", and a
string prints verbatim. -/
def pyStr : Option String → String
  | none => "None"
  | some s => s

/-- The one line written per transition (tagger.py lines 73-78):
`[<timestamp>] <START|END> <current_game>` with a trailing newline.
`["START", "END"][end]` selects "END" exactly when `end` is true. -/
def formatLine (timestamp : String) (isEnd : Bool) (current_game : Option String) : String :=
  "[" ++ timestamp ++ "] " ++ (if isEnd then "END" else "START") ++ " " ++ pyStr current_game ++ "\n"

/-- The log file as the script observes it: whether `open(path, "a")`
succeeds, and the lines appended so far.  Appending preserves existing
content; the `with` block closes (and thereby flushes) the handle on
exit. -/
structure LogFile where
  writable : Bool
  lines : List String
deriving Repr, DecidableEq

/-- Outcome of one `log_transition` call: the exception raised, if any,
and the log file afterwards. -/
structure LogResult where
  exc : Option String
  logfile : LogFile
deriving Repr, DecidableEq

/-- `log_transition` (tagger.py lines 67-78): formats the timestamped
line and appends it to the configured file.  If the file cannot be
opened for append, `open` raises `OSError`; the function body has no
handler, so the exception propagates to the caller and nothing is
written. -/
def log_transition (timestamp : String) (logfile : LogFile) (current_game : Option String)
    (isEnd : Bool := false) : LogResult :=
  if logfile.writable then
    { exc := none,
      logfile := { logfile with lines := logfile.lines ++ [formatLine timestamp isEnd current_game] } }
  else
    { exc := some "OSError", logfile := logfile }

/-- One HTTP response as `set_game` inspects it: the status code, and
the result of `resp.json()` restricted to the string-valued fields the
script can read (`none` models a body that is not valid JSON, so that
`resp.json()` raises). -/
structure Response where
  status_code : Nat
  body : Option (List (String × String))
deriving Repr, DecidableEq

/-- Behaviour of the one `requests.get(apiurl)` call made by `set_game`:
either the transport raises (connection error, timeout, ...) or a
response object comes back. -/
inductive GetResult where
  | raise
  | response (resp : Response)
deriving Repr, DecidableEq

/-- Outcome of one `set_game` call: the exception raised (if any), the
`current_game` entry afterwards, and the console lines printed. -/
structure SetGameResult where
  exc : Option String
  current_game : Option String
  prints : List String
deriving Repr, DecidableEq

/-- `set_game` (tagger.py lines 80-89): performs one GET on the
configured endpoint.  On status 200 it stores
`resp.json()["current_game_id"]`; on any other status it prints
"Failed to get data from API" and stores nothing.  A transport error, a
body that fails to parse, or a parsed body without the key all raise
before the assignment, leaving `current_game` unchanged and propagating
the exception (there is no try/except in the function). -/
def set_game (get : GetResult) (current_game : Option String) : SetGameResult :=
  match get with
  | .raise => { exc := some "RequestException", current_game := current_game, prints := [] }
  | .response resp =>
    if resp.status_code == 200 then
      match resp.body with
      | none => { exc := some "JSONDecodeError", current_game := current_game, prints := [] }
      | some fields =>
        match fields.lookup "current_game_id" with
        | none => { exc := some "KeyError", current_game := current_game, prints := [] }
        | some g => { exc := none, current_game := some g, prints := [] }
    else
      { exc := none, current_game := current_game, prints := ["Failed to get data from API"] }

/-- Whether a `set_game` call with this transport behaviour succeeds in
resolving a game id (status 200, parseable body, field present) — the
only circumstance in which tagger.py line 87 assigns `current_game`. -/
def resolvesSuccessfully : GetResult → Bool
  | .raise => false
  | .response resp =>
    resp.status_code == 200 &&
      (match resp.body with
       | none => false
       | some fields => (fields.lookup "current_game_id").isSome)

/-- An OBS frontend event as delivered to the callback: either
`OBS_FRONTEND_EVENT_SCENE_CHANGED` (tagged with the name of the current
scene, which the handler reads via `obs_frontend_get_current_scene` /
`obs_source_get_name`), or any other frontend event, identified by its
numeric code. -/
inductive FrontendEvent where
  | sceneChanged (scene_name : String)
  | other (code : Nat)
deriving Repr, DecidableEq

/-- Outcome of one `handle_event` invocation: the exception escaping the
callback (if any), the session state and log file afterwards, the
console lines printed, and how many times `set_game` was called. -/
structure StepResult where
  exc : Option String
  data : Data
  logfile : LogFile
  prints : List String
  resolver_calls : Nat
deriving Repr, DecidableEq

/-- `handle_event` (tagger.py lines 95-125).  Only a scene-changed event
does anything: the handler reads the configured scene-name list fresh,
then
* if not in a game scene and the new scene is in the list: prints
  "Entering game", calls `set_game`, calls `log_transition` (START),
  and sets `in_game_scene = True`;
* else if in a game scene and the new scene is not in the list: prints
  "Leaving game", calls `log_transition(end=True)`, and sets
  `in_game_scene = False`;
* otherwise does nothing.
An exception raised by `set_game` or `log_transition` aborts the rest
of the branch (in particular the flag assignment), since the handler
has no try/except. -/
def handle_event (cfg : Config) (get : GetResult) (timestamp : String)
    (st : Data) (lf : LogFile) (event : FrontendEvent) : StepResult :=
  match event with
  | .other _ =>
    { exc := none, data := st, logfile := lf, prints := [], resolver_calls := 0 }
  | .sceneChanged scene_name =>
    let game_scenes := cfg.gamescene
    if !st.in_game_scene && game_scenes.contains scene_name then
      let sg := set_game get st.current_game
      match sg.exc with
      | some e =>
        { exc := some e, data := { st with current_game := sg.current_game },
          logfile := lf, prints := ["Entering game"] ++ sg.prints, resolver_calls := 1 }
      | none =>
        let lt := log_transition timestamp lf sg.current_game false
        match lt.exc with
        | some e =>
          { exc := some e, data := { st with current_game := sg.current_game },
            logfile := lt.logfile, prints := ["Entering game"] ++ sg.prints, resolver_calls := 1 }
        | none =>
          { exc := none, data := { in_game_scene := true, current_game := sg.current_game },
            logfile := lt.logfile, prints := ["Entering game"] ++ sg.prints, resolver_calls := 1 }
    else if st.in_game_scene && !game_scenes.contains scene_name then
      let lt := log_transition timestamp lf st.current_game true
      match lt.exc with
      | some e =>
        { exc := some e, data := st, logfile := lt.logfile,
          prints := ["Leaving game"], resolver_calls := 0 }
      | none =>
        { exc := none, data := { st with in_game_scene := false }, logfile := lt.logfile,
          prints := ["Leaving game"], resolver_calls := 0 }
    else
      { exc := none, data := st, logfile := lf, prints := [], resolver_calls := 0 }

/-- Input to one invocation of the callback: the configuration as read
at that moment (OBS may change it between events), the transport
behaviour of the GET that a start transition would make, the wall-clock
timestamp, and the event itself. -/
structure StepInput where
  cfg : Config
  get : GetResult
  timestamp : String
  event : FrontendEvent
deriving Repr, DecidableEq

/-- A run of the script: the host delivers the events one after another
to `handle_event`.  The module-level state and the log file persist
across invocations; an exception escaping one invocation is swallowed by
the host's callback dispatch, so later events are still delivered. -/
def runEvents : List StepInput → Data → LogFile → Data × LogFile
  | [], st, lf => (st, lf)
  | s :: rest, st, lf =>
    let r := handle_event s.cfg s.get s.timestamp st lf s.event
    runEvents rest r.data r.logfile

/-! ### Helper lemmas -/

/-- When the transport behaviour is not a successful resolution,
`set_game` leaves `current_game` unchanged: every path other than the
assignment on line 87 of tagger.py keeps the old value. -/
lemma set_game_current_game_of_not_success (get : GetResult) (cg : Option String)
    (h : resolvesSuccessfully get = false) : (set_game get cg).current_game = cg := by
  cases get with
  | raise => rfl
  | response resp =>
    by_cases h200 : resp.status_code == 200
    · cases hbody : resp.body with
      | none => simp [set_game, h200, hbody]
      | some fields =>
        cases hfield : fields.lookup "current_game_id" with
        | none => simp [set_game, h200, hbody, hfield]
        | some g =>
          exfalso
          simp [resolvesSuccessfully, h200, hbody, hfield] at h
    · simp [set_game, h200]

/-- One `handle_event` invocation changes `current_game` only through a
successful resolution; with any other transport behaviour the value is
untouched on every control path. -/
lemma handle_event_current_game_frame (cfg : Config) (get : GetResult) (ts : String)
    (st : Data) (lf : LogFile) (event : FrontendEvent)
    (h : resolvesSuccessfully get = false) :
    (handle_event cfg get ts st lf event).data.current_game = st.current_game := by
  cases event with
  | other code => rfl
  | sceneChanged scene =>
    have hsg := set_game_current_game_of_not_success get st.current_game h
    simp only [handle_event]
    split
    · split
      · simp [hsg]
      · split <;> simp [hsg]
    · split
      · split <;> rfl
      · rfl

/-- Evaluation of `log_transition` on a writable path: no exception,
one formatted line appended. -/
lemma log_transition_writable (ts : String) (lf : LogFile) (g : Option String) (isEnd : Bool)
    (h : lf.writable = true) :
    log_transition ts lf g isEnd =
      { exc := none,
        logfile := { writable := true, lines := lf.lines ++ [formatLine ts isEnd g] } } := by
  simp [log_transition, h]

/-- Evaluation of `log_transition` on an unwritable path: `open` raises,
the file is untouched. -/
lemma log_transition_not_writable (ts : String) (lf : LogFile) (g : Option String) (isEnd : Bool)
    (h : lf.writable = false) :
    log_transition ts lf g isEnd = { exc := some "OSError", logfile := lf } := by
  simp [log_transition, h]

/-- If the scene change fires no transition (the flag already agrees
with the scene's membership in the configured list), the handler is a
complete no-op. -/
lemma handle_event_noop_of_settled (cfg : Config) (get : GetResult) (ts : String)
    (st : Data) (lf : LogFile) (scene : String)
    (h : st.in_game_scene = cfg.gamescene.contains scene) :
    handle_event cfg get ts st lf (.sceneChanged scene) =
      { exc := none, data := st, logfile := lf, prints := [], resolver_calls := 0 } := by
  cases hin : st.in_game_scene with
  | false =>
    have hc : cfg.gamescene.contains scene = false := by rw [← h, hin]
    simp only [handle_event]
    rw [hin, hc]
    rfl
  | true =>
    have hc : cfg.gamescene.contains scene = true := by rw [← h, hin]
    simp only [handle_event]
    rw [hin, hc]
    rfl

/-- Start branch, `set_game` raises: the exception escapes, the print
has already happened, the flag is not set, nothing is logged. -/
lemma handle_event_start_raise (cfg : Config) (get : GetResult) (ts : String)
    (st : Data) (lf : LogFile) (scene : String) (e : String)
    (hin : st.in_game_scene = false)
    (hscene : cfg.gamescene.contains scene = true)
    (hsg : (set_game get st.current_game).exc = some e) :
    handle_event cfg get ts st lf (.sceneChanged scene) =
      { exc := some e,
        data := { st with current_game := (set_game get st.current_game).current_game },
        logfile := lf, prints := ["Entering game"] ++ (set_game get st.current_game).prints,
        resolver_calls := 1 } := by
  simp only [handle_event]
  rw [hin, hscene, hsg]
  rfl

/-- Start branch, `set_game` returns but the log file is unwritable:
`open` raises after the resolver ran, so `current_game` may be updated
but the flag is not set and nothing is written. -/
lemma handle_event_start_write_fail (cfg : Config) (get : GetResult) (ts : String)
    (st : Data) (lf : LogFile) (scene : String)
    (hin : st.in_game_scene = false)
    (hscene : cfg.gamescene.contains scene = true)
    (hsg : (set_game get st.current_game).exc = none)
    (hlf : lf.writable = false) :
    handle_event cfg get ts st lf (.sceneChanged scene) =
      { exc := some "OSError",
        data := { st with current_game := (set_game get st.current_game).current_game },
        logfile := lf, prints := ["Entering game"] ++ (set_game get st.current_game).prints,
        resolver_calls := 1 } := by
  simp only [handle_event]
  rw [hin, hscene, hsg,
    log_transition_not_writable ts lf (set_game get st.current_game).current_game false hlf]
  rfl

/-- Start branch, no exception anywhere: the full start transition. -/
lemma handle_event_start_ok (cfg : Config) (get : GetResult) (ts : String)
    (st : Data) (lf : LogFile) (scene : String)
    (hin : st.in_game_scene = false)
    (hscene : cfg.gamescene.contains scene = true)
    (hsg : (set_game get st.current_game).exc = none)
    (hlf : lf.writable = true) :
    handle_event cfg get ts st lf (.sceneChanged scene) =
      { exc := none,
        data := { in_game_scene := true,
                  current_game := (set_game get st.current_game).current_game },
        logfile := { writable := true,
                     lines := lf.lines ++
                       [formatLine ts false (set_game get st.current_game).current_game] },
        prints := ["Entering game"] ++ (set_game get st.current_game).prints,
        resolver_calls := 1 } := by
  simp only [handle_event]
  rw [hin, hscene, hsg,
    log_transition_writable ts lf (set_game get st.current_game).current_game false hlf]
  rfl

/-- End branch, writable log: the full end transition. -/
lemma handle_event_end_ok (cfg : Config) (get : GetResult) (ts : String)
    (st : Data) (lf : LogFile) (scene : String)
    (hin : st.in_game_scene = true)
    (hscene : cfg.gamescene.contains scene = false)
    (hlf : lf.writable = true) :
    handle_event cfg get ts st lf (.sceneChanged scene) =
      { exc := none, data := { st with in_game_scene := false },
        logfile := { writable := true,
                     lines := lf.lines ++ [formatLine ts true st.current_game] },
        prints := ["Leaving game"], resolver_calls := 0 } := by
  simp only [handle_event]
  rw [hin, hscene, log_transition_writable ts lf st.current_game true hlf]
  rfl

/-- End branch, unwritable log: `open` raises, the exception escapes,
the flag keeps its value and nothing is written or reported. -/
lemma handle_event_end_write_fail (cfg : Config) (get : GetResult) (ts : String)
    (st : Data) (lf : LogFile) (scene : String)
    (hin : st.in_game_scene = true)
    (hscene : cfg.gamescene.contains scene = false)
    (hlf : lf.writable = false) :
    handle_event cfg get ts st lf (.sceneChanged scene) =
      { exc := some "OSError", data := st, logfile := lf,
        prints := ["Leaving game"], resolver_calls := 0 } := by
  simp only [handle_event]
  rw [hin, hscene, log_transition_not_writable ts lf st.current_game true hlf]
  rfl

/-- After a scene change into a configured game scene that raised no
exception, the session is in the game state: either it already was, or
the start branch ran to completion and set the flag. -/
lemma in_game_after_no_exc (cfg : Config) (get : GetResult) (ts : String)
    (st : Data) (lf : LogFile) (scene : String)
    (hscene : cfg.gamescene.contains scene = true)
    (hexc : (handle_event cfg get ts st lf (.sceneChanged scene)).exc = none) :
    (handle_event cfg get ts st lf (.sceneChanged scene)).data.in_game_scene = true := by
  cases hin : st.in_game_scene with
  | true =>
    rw [handle_event_noop_of_settled cfg get ts st lf scene (by rw [hin, hscene])]
    exact hin
  | false =>
    cases hsg : (set_game get st.current_game).exc with
    | some e =>
      rw [handle_event_start_raise cfg get ts st lf scene e hin hscene hsg] at hexc
      simp at hexc
    | none =>
      cases hlf : lf.writable with
      | false =>
        rw [handle_event_start_write_fail cfg get ts st lf scene hin hscene hsg hlf] at hexc
        simp at hexc
      | true =>
        rw [handle_event_start_ok cfg get ts st lf scene hin hscene hsg hlf]

/-! ### Claim theorems -/

/-- Claim C10: any frontend event other than a scene change leaves the
session state and log file untouched and performs no side effect at all:
no resolver call, no log write, no console output, no exception. -/
theorem other_events_noop (cfg : Config) (get : GetResult) (ts : String)
    (st : Data) (lf : LogFile) (code : Nat) :
    handle_event cfg get ts st lf (.other code) =
      { exc := none, data := st, logfile := lf, prints := [], resolver_calls := 0 } := rfl

/-- Claim C7: when the path is writable, `log_transition` appends to the
existing file content exactly one line of the form
`[<timestamp>] <START|END> <game id or "None">` terminated by a newline,
and returns without an exception; the append preserves everything
already in the file. -/
theorem log_transition_append_spec (ts : String) (lf : LogFile) (g : Option String)
    (isEnd : Bool) (h : lf.writable = true) :
    log_transition ts lf g isEnd =
      { exc := none,
        logfile := { writable := lf.writable,
                     lines := lf.lines ++
                       ["[" ++ ts ++ "] " ++ (if isEnd then "END" else "START") ++ " "
                          ++ pyStr g ++ "\n"] } } := by
  simp [log_transition, h, formatLine]

/-- Witness for C7 at a concrete call: appending an END line for game
"g7" to a file already holding one line. -/
theorem log_transition_append_spec_witness :
    (LogFile.mk true ["old line\n"]).writable = true ∧
    log_transition "2026-01-01T12:00:00" (LogFile.mk true ["old line\n"]) (some "g7") true =
      { exc := none,
        logfile := LogFile.mk true ["old line\n", "[2026-01-01T12:00:00] END g7\n"] } :=
  ⟨rfl, (log_transition_append_spec "2026-01-01T12:00:00"
      (LogFile.mk true ["old line\n"]) (some "g7") true rfl).trans (by decide)⟩

/-- Claim C9: on a response whose status is the success status the
resolver reads the `current_game_id` field of the parsed body and stores
it as the current game (printing nothing); on any non-success status it
prints a failure message and stores nothing.  (In tagger.py line 86,
"status indicates success" is exactly `status_code == 200`.) -/
theorem set_game_spec (resp : Response) (cg : Option String) :
    (∀ fields g, resp.status_code = 200 → resp.body = some fields →
        fields.lookup "current_game_id" = some g →
        set_game (.response resp) cg = { exc := none, current_game := some g, prints := [] }) ∧
    (resp.status_code ≠ 200 →
        set_game (.response resp) cg =
          { exc := none, current_game := cg,
            prints := ["Failed to get data from API"] }) := by
  constructor
  · intro fields g h200 hbody hfield
    simp [set_game, h200, hbody, hfield]
  · intro hne
    simp [set_game, hne]

/-- Witness for C9: a 200 response with body `{"current_game_id": "g1"}`
stores "g1"; a 404 response keeps the stored value and prints the
failure message. -/
theorem set_game_spec_witness :
    ((Response.mk 200 (some [("current_game_id", "g1")])).status_code = 200 ∧
      set_game (.response (Response.mk 200 (some [("current_game_id", "g1")]))) none =
        { exc := none, current_game := some "g1", prints := [] }) ∧
    ((Response.mk 404 (some [])).status_code ≠ 200 ∧
      set_game (.response (Response.mk 404 (some []))) (some "old") =
        { exc := none, current_game := some "old",
          prints := ["Failed to get data from API"] }) :=
  ⟨⟨rfl, (set_game_spec (Response.mk 200 (some [("current_game_id", "g1")])) none).1
      [("current_game_id", "g1")] "g1" rfl rfl (by decide)⟩,
   ⟨by decide, (set_game_spec (Response.mk 404 (some [])) (some "old")).2 (by decide)⟩⟩

/-- When `in_game_scene` is false and no step's configuration lists any
game scene, the whole run is inert: state and log file come back
unchanged. -/
lemma runEvents_inert (steps : List StepInput) (st : Data) (lf : LogFile)
    (hst : st.in_game_scene = false)
    (h : ∀ s ∈ steps, s.cfg.gamescene = []) :
    runEvents steps st lf = (st, lf) := by
  induction steps generalizing st lf with
  | nil => rfl
  | cons s rest ih =>
    have hcfg : s.cfg.gamescene = [] := h s (List.mem_cons_self s rest)
    have hstep : handle_event s.cfg s.get s.timestamp st lf s.event =
        { exc := none, data := st, logfile := lf, prints := [], resolver_calls := 0 } := by
      cases s.event with
      | other code => rfl
      | sceneChanged scene =>
        exact handle_event_noop_of_settled _ _ _ _ _ _ (by rw [hst, hcfg]; rfl)
    simp only [runEvents, hstep]
    exact ih st lf hst (fun x hx => h x (List.mem_cons_of_mem s hx))

/-- Over a whole run in which no step's transport behaviour is a
successful resolution, `current_game` never changes. -/
lemma runEvents_current_game_frame (steps : List StepInput) (st : Data) (lf : LogFile)
    (h : ∀ s ∈ steps, resolvesSuccessfully s.get = false) :
    (runEvents steps st lf).1.current_game = st.current_game := by
  induction steps generalizing st lf with
  | nil => rfl
  | cons s rest ih =>
    simp only [runEvents]
    rw [ih _ _ (fun x hx => h x (List.mem_cons_of_mem s hx))]
    exact handle_event_current_game_frame _ _ _ _ _ _ (h s (List.mem_cons_self s rest))

/-- Claim C3: from a state that is not in a game scene, a scene change
to a configured game scene calls the resolver exactly once, appends
exactly one START line (with the resolver's resulting game id), and
sets the flag — provided the resolver call returns (it may still be a
failed, message-printing lookup) and the log path is writable.  The
raising resolver paths and the unwritable-log path are settled
separately with the error-handling claims. -/
theorem start_transition_effects (cfg : Config) (get : GetResult) (ts : String)
    (st : Data) (lf : LogFile) (scene : String)
    (hin : st.in_game_scene = false)
    (hscene : cfg.gamescene.contains scene = true)
    (hsg : (set_game get st.current_game).exc = none)
    (hlf : lf.writable = true) :
    handle_event cfg get ts st lf (.sceneChanged scene) =
      { exc := none,
        data := { in_game_scene := true,
                  current_game := (set_game get st.current_game).current_game },
        logfile := { writable := true,
                     lines := lf.lines ++
                       [formatLine ts false (set_game get st.current_game).current_game] },
        prints := ["Entering game"] ++ (set_game get st.current_game).prints,
        resolver_calls := 1 } :=
  handle_event_start_ok cfg get ts st lf scene hin hscene hsg hlf

/-- Witness for C3 at a concrete input: a successful resolution of "g1"
yields one resolver call, one START line and the flag set. -/
theorem start_transition_effects_witness :
    initialData.in_game_scene = false ∧
    (Config.mk ["Game"] "vods.log" "http://api").gamescene.contains "Game" = true ∧
    (set_game (.response (Response.mk 200 (some [("current_game_id", "g1")])))
        initialData.current_game).exc = none ∧
    (LogFile.mk true []).writable = true ∧
    handle_event (Config.mk ["Game"] "vods.log" "http://api")
        (.response (Response.mk 200 (some [("current_game_id", "g1")]))) "2026-01-01T10:00:00"
        initialData (LogFile.mk true []) (.sceneChanged "Game") =
      { exc := none, data := Data.mk true (some "g1"),
        logfile := LogFile.mk true ["[2026-01-01T10:00:00] START g1\n"],
        prints := ["Entering game"], resolver_calls := 1 } :=
  ⟨rfl, by decide, rfl, rfl,
    (start_transition_effects (Config.mk ["Game"] "vods.log" "http://api")
      (.response (Response.mk 200 (some [("current_game_id", "g1")]))) "2026-01-01T10:00:00"
      initialData (LogFile.mk true []) "Game" rfl (by decide) rfl rfl).trans (by decide)⟩

/-- Claim C4: from a state in a game scene, a scene change to a scene
outside the configured list appends exactly one END line carrying the
previously stored game id (the resolver is not called: zero resolver
calls), leaves `current_game` untouched, and clears the flag — provided
the log path is writable (the unwritable path is settled with C2). -/
theorem end_transition_effects (cfg : Config) (get : GetResult) (ts : String)
    (st : Data) (lf : LogFile) (scene : String)
    (hin : st.in_game_scene = true)
    (hscene : cfg.gamescene.contains scene = false)
    (hlf : lf.writable = true) :
    handle_event cfg get ts st lf (.sceneChanged scene) =
      { exc := none, data := { st with in_game_scene := false },
        logfile := { writable := true,
                     lines := lf.lines ++ [formatLine ts true st.current_game] },
        prints := ["Leaving game"], resolver_calls := 0 } :=
  handle_event_end_ok cfg get ts st lf scene hin hscene hlf

/-- Witness for C4 at a concrete input: leaving for "Lobby" writes one
END line with the stored id "g1" and no resolver call. -/
theorem end_transition_effects_witness :
    (Data.mk true (some "g1")).in_game_scene = true ∧
    (Config.mk ["Game"] "vods.log" "http://api").gamescene.contains "Lobby" = false ∧
    (LogFile.mk true ["old\n"]).writable = true ∧
    handle_event (Config.mk ["Game"] "vods.log" "http://api") GetResult.raise
        "2026-01-01T11:00:00" (Data.mk true (some "g1")) (LogFile.mk true ["old\n"])
        (.sceneChanged "Lobby") =
      { exc := none, data := Data.mk false (some "g1"),
        logfile := LogFile.mk true ["old\n", "[2026-01-01T11:00:00] END g1\n"],
        prints := ["Leaving game"], resolver_calls := 0 } :=
  ⟨rfl, by decide, rfl,
    (end_transition_effects (Config.mk ["Game"] "vods.log" "http://api") GetResult.raise
      "2026-01-01T11:00:00" (Data.mk true (some "g1")) (LogFile.mk true ["old\n"]) "Lobby"
      rfl (by decide) rfl).trans (by decide)⟩

/-- Claim C5: when the flag already agrees with the scene's membership
in the configured list, the handler does nothing: no exception, no
state change, no log write, no print, no resolver call.  Consequently,
after an exception-free scene change to a configured game scene, a
second scene change to the same name is a complete no-op, whatever the
environment does on that second call. -/
theorem noop_and_idempotence (cfg : Config) (get : GetResult) (ts : String)
    (st : Data) (lf : LogFile) (scene : String) :
    (st.in_game_scene = cfg.gamescene.contains scene →
       handle_event cfg get ts st lf (.sceneChanged scene) =
         { exc := none, data := st, logfile := lf, prints := [], resolver_calls := 0 }) ∧
    (∀ get2 ts2, cfg.gamescene.contains scene = true →
       (handle_event cfg get ts st lf (.sceneChanged scene)).exc = none →
       handle_event cfg get2 ts2 (handle_event cfg get ts st lf (.sceneChanged scene)).data
           (handle_event cfg get ts st lf (.sceneChanged scene)).logfile
           (.sceneChanged scene) =
         { exc := none, data := (handle_event cfg get ts st lf (.sceneChanged scene)).data,
           logfile := (handle_event cfg get ts st lf (.sceneChanged scene)).logfile,
           prints := [], resolver_calls := 0 }) := by
  constructor
  · exact handle_event_noop_of_settled cfg get ts st lf scene
  · intro get2 ts2 hscene hexc
    exact handle_event_noop_of_settled cfg get2 ts2 _ _ scene
      (by rw [in_game_after_no_exc cfg get ts st lf scene hscene hexc, hscene])

/-- Witness for C5: a settled state (in game, scene configured) is a
no-op; after a first successful start transition, repeating the same
scene name is a no-op even though the transport would now raise. -/
theorem noop_and_idempotence_witness :
    ((Data.mk true (some "g1")).in_game_scene =
        (Config.mk ["Game"] "vods.log" "http://api").gamescene.contains "Game" ∧
      handle_event (Config.mk ["Game"] "vods.log" "http://api") GetResult.raise "T0"
          (Data.mk true (some "g1")) (LogFile.mk true []) (.sceneChanged "Game") =
        { exc := none, data := Data.mk true (some "g1"), logfile := LogFile.mk true [],
          prints := [], resolver_calls := 0 }) ∧
    ((Config.mk ["Game"] "vods.log" "http://api").gamescene.contains "Game" = true ∧
      (handle_event (Config.mk ["Game"] "vods.log" "http://api")
          (.response (Response.mk 200 (some [("current_game_id", "g1")]))) "T1"
          initialData (LogFile.mk true []) (.sceneChanged "Game")).exc = none ∧
      handle_event (Config.mk ["Game"] "vods.log" "http://api") GetResult.raise "T2"
          (Data.mk true (some "g1")) (LogFile.mk true ["[T1] START g1\n"])
          (.sceneChanged "Game") =
        { exc := none, data := Data.mk true (some "g1"),
          logfile := LogFile.mk true ["[T1] START g1\n"], prints := [],
          resolver_calls := 0 }) :=
  ⟨⟨by decide,
     (noop_and_idempotence (Config.mk ["Game"] "vods.log" "http://api") GetResult.raise "T0"
       (Data.mk true (some "g1")) (LogFile.mk true []) "Game").1 (by decide)⟩,
   ⟨by decide, by decide,
     (noop_and_idempotence (Config.mk ["Game"] "vods.log" "http://api")
       (.response (Response.mk 200 (some [("current_game_id", "g1")]))) "T1" initialData
       (LogFile.mk true []) "Game").2 GetResult.raise "T2" (by decide) (by decide)⟩⟩

/-- Claim C6: with an empty configured scene list at every step, no run
from the initial state ever sets the in-game flag and no line of any
kind — in particular no START line — is ever appended to the log. -/
theorem empty_gamescene_inert (steps : List StepInput) (lf : LogFile)
    (h : ∀ s ∈ steps, s.cfg.gamescene = []) :
    (runEvents steps initialData lf).1.in_game_scene = false ∧
    (runEvents steps initialData lf).2.lines = lf.lines := by
  rw [runEvents_inert steps initialData lf rfl h]
  exact ⟨rfl, rfl⟩

/-- Witness for C6: a two-event run with empty scene lists stays out of
the game state and writes nothing. -/
theorem empty_gamescene_inert_witness :
    (∀ s ∈ [StepInput.mk (Config.mk [] "vods.log" "http://api") GetResult.raise "T0"
              (.sceneChanged "Game"),
            StepInput.mk (Config.mk [] "vods.log" "http://api")
              (.response (Response.mk 200 (some [("current_game_id", "g1")]))) "T1"
              (.sceneChanged "Lobby")], s.cfg.gamescene = []) ∧
    (runEvents
        [StepInput.mk (Config.mk [] "vods.log" "http://api") GetResult.raise "T0"
           (.sceneChanged "Game"),
         StepInput.mk (Config.mk [] "vods.log" "http://api")
           (.response (Response.mk 200 (some [("current_game_id", "g1")]))) "T1"
           (.sceneChanged "Lobby")] initialData (LogFile.mk true [])).1.in_game_scene = false ∧
    (runEvents
        [StepInput.mk (Config.mk [] "vods.log" "http://api") GetResult.raise "T0"
           (.sceneChanged "Game"),
         StepInput.mk (Config.mk [] "vods.log" "http://api")
           (.response (Response.mk 200 (some [("current_game_id", "g1")]))) "T1"
           (.sceneChanged "Lobby")] initialData (LogFile.mk true [])).2.lines =
      (LogFile.mk true []).lines :=
  ⟨by decide,
   (empty_gamescene_inert
     [StepInput.mk (Config.mk [] "vods.log" "http://api") GetResult.raise "T0"
        (.sceneChanged "Game"),
      StepInput.mk (Config.mk [] "vods.log" "http://api")
        (.response (Response.mk 200 (some [("current_game_id", "g1")]))) "T1"
        (.sceneChanged "Lobby")] (LogFile.mk true []) (by decide)).1,
   (empty_gamescene_inert
     [StepInput.mk (Config.mk [] "vods.log" "http://api") GetResult.raise "T0"
        (.sceneChanged "Game"),
      StepInput.mk (Config.mk [] "vods.log" "http://api")
        (.response (Response.mk 200 (some [("current_game_id", "g1")]))) "T1"
        (.sceneChanged "Lobby")] (LogFile.mk true []) (by decide)).2⟩

/-- Claim C8: `current_game` is changed only by a successful
resolution: any single event whose transport behaviour is not a
successful resolution leaves it untouched; the end transition leaves it
untouched and logs the END line with exactly the stored value; and a
whole run in which the resolver never succeeds leaves it at its initial
value, so every line of such a run repeats the last successfully
resolved id. -/
theorem current_game_frame (cfg : Config) (get : GetResult) (ts : String) (st : Data)
    (lf : LogFile) (event : FrontendEvent) (scene : String) (steps : List StepInput) :
    (resolvesSuccessfully get = false →
       (handle_event cfg get ts st lf event).data.current_game = st.current_game) ∧
    (st.in_game_scene = true → cfg.gamescene.contains scene = false → lf.writable = true →
       (handle_event cfg get ts st lf (.sceneChanged scene)).data.current_game =
         st.current_game ∧
       (handle_event cfg get ts st lf (.sceneChanged scene)).logfile.lines =
         lf.lines ++ [formatLine ts true st.current_game]) ∧
    ((∀ s ∈ steps, resolvesSuccessfully s.get = false) →
       (runEvents steps st lf).1.current_game = st.current_game) := by
  refine ⟨handle_event_current_game_frame cfg get ts st lf event, ?_, ?_⟩
  · intro hin hscene hlf
    rw [handle_event_end_ok cfg get ts st lf scene hin hscene hlf]
    exact ⟨rfl, rfl⟩
  · exact runEvents_current_game_frame steps st lf

/-- Witness for C8: a 404 response leaves the stored id unchanged; the
end transition logs that stored id; a two-step run of failures keeps
it. -/
theorem current_game_frame_witness :
    (resolvesSuccessfully (.response (Response.mk 404 (some []))) = false ∧
      (handle_event (Config.mk ["Game"] "vods.log" "http://api")
          (.response (Response.mk 404 (some []))) "T0" initialData (LogFile.mk true [])
          (.sceneChanged "Game")).data.current_game = initialData.current_game) ∧
    ((Data.mk true (some "g1")).in_game_scene = true ∧
      (Config.mk ["Game"] "vods.log" "http://api").gamescene.contains "Lobby" = false ∧
      (LogFile.mk true []).writable = true ∧
      (handle_event (Config.mk ["Game"] "vods.log" "http://api") GetResult.raise "T1"
          (Data.mk true (some "g1")) (LogFile.mk true [])
          (.sceneChanged "Lobby")).data.current_game = (Data.mk true (some "g1")).current_game ∧
      (handle_event (Config.mk ["Game"] "vods.log" "http://api") GetResult.raise "T1"
          (Data.mk true (some "g1")) (LogFile.mk true [])
          (.sceneChanged "Lobby")).logfile.lines =
        (LogFile.mk true []).lines ++ [formatLine "T1" true (Data.mk true (some "g1")).current_game]) ∧
    ((∀ s ∈ [StepInput.mk (Config.mk ["Game"] "vods.log" "http://api")
               (.response (Response.mk 404 (some []))) "T2" (.sceneChanged "Game"),
             StepInput.mk (Config.mk ["Game"] "vods.log" "http://api") GetResult.raise "T3"
               (.sceneChanged "Game")], resolvesSuccessfully s.get = false) ∧
      (runEvents
          [StepInput.mk (Config.mk ["Game"] "vods.log" "http://api")
             (.response (Response.mk 404 (some []))) "T2" (.sceneChanged "Game"),
           StepInput.mk (Config.mk ["Game"] "vods.log" "http://api") GetResult.raise "T3"
             (.sceneChanged "Game")] (Data.mk false (some "g0"))
          (LogFile.mk true [])).1.current_game = (Data.mk false (some "g0")).current_game) :=
  ⟨⟨by decide,
     (current_game_frame (Config.mk ["Game"] "vods.log" "http://api")
       (.response (Response.mk 404 (some []))) "T0" initialData (LogFile.mk true [])
       (.sceneChanged "Game") "Game" []).1 (by decide)⟩,
   ⟨rfl, by decide, rfl,
     (current_game_frame (Config.mk ["Game"] "vods.log" "http://api") GetResult.raise "T1"
       (Data.mk true (some "g1")) (LogFile.mk true []) (.sceneChanged "Lobby") "Lobby" []).2.1
       rfl (by decide) rfl⟩,
   ⟨by decide,
     (current_game_frame (Config.mk ["Game"] "vods.log" "http://api") GetResult.raise "T9"
       (Data.mk false (some "g0")) (LogFile.mk true []) (.sceneChanged "x") "x"
       [StepInput.mk (Config.mk ["Game"] "vods.log" "http://api")
          (.response (Response.mk 404 (some []))) "T2" (.sceneChanged "Game"),
        StepInput.mk (Config.mk ["Game"] "vods.log" "http://api") GetResult.raise "T3"
          (.sceneChanged "Game")]).2.2 (by decide)⟩⟩

/-- Claim C1, divergence at a concrete input: with the state not in a
game scene, the scene set to a configured game scene and the transport
raising (a network error), `handle_event` lets the exception escape:
the start transition is aborted — no START line is appended and
`in_game_scene` stays false, so a failed lookup of this kind does
prevent the start timestamp from being recorded.  (Only non-success
status codes are handled best-effort, via the status check on
tagger.py line 86.) -/
theorem start_transition_aborted_on_raise :
    handle_event (Config.mk ["Game"] "vods.log" "http://api.example/current") GetResult.raise
        "2026-01-01T00:00:00" initialData (LogFile.mk true []) (.sceneChanged "Game") =
      { exc := some "RequestException", data := initialData, logfile := LogFile.mk true [],
        prints := ["Entering game"], resolver_calls := 1 } := by
  decide

/-- Claim C2, divergence at a concrete input: when the log path is not
writable during an end transition, the `OSError` from `open` escapes
`log_transition` and `handle_event` uncaught; the script prints no
failure message, writes nothing, and does not even clear the in-game
flag — nothing in the script surfaces or contains the failure. -/
theorem write_failure_propagates :
    handle_event (Config.mk ["Game"] "vods.log" "http://api.example/current")
        (.response (Response.mk 200 (some [("current_game_id", "g1")]))) "2026-01-01T01:00:00"
        (Data.mk true (some "g1")) (LogFile.mk false []) (.sceneChanged "Lobby") =
      { exc := some "OSError", data := Data.mk true (some "g1"), logfile := LogFile.mk false [],
        prints := ["Leaving game"], resolver_calls := 0 } := by
  decide

end Tagger
